import Mathlib

/-!
Shallow embedding of the eDive data-quality pipeline
(src/Cleaning/cleaning.py, src/Validations/validations.py, src/main.py),
with theorems settling the frozen claims about the natural-language spec.

Conventions of the embedding:
* pandas DataFrames are modelled as row-oriented tables: a row is an
  association list from column name to a typed cell `Value`.
* fallible Python code is modelled with `Except String`, the error string
  standing for the raised exception (message text abbreviated, without the
  Python quoting).
* pandas numeric parsing is abstracted by the executable predicate
  `isNumericStr` (plain decimal literals with optional sign); datetime
  parsing by `parsesAsDatetime`.  No proved theorem depends on the exact
  grammar these predicates accept, only on their decidability.
-/

/-- A typed cell of the canonical table.  `vnum` / `vdate` keep the source
literal of the successfully coerced value, since float and timestamp
arithmetic is out of scope; `vNA` is the missing-value marker (`pd.NA` /
`NaN` / `NaT`). -/
inductive Value where
  | vstr : String → Value
  | vnum : String → Value
  | vdate : String → Value
  | vNA : Value
deriving DecidableEq

/-- One row: ordered mapping from column name to cell value. -/
abbrev Row := List (String × Value)

/-- The canonical row-oriented table (a pandas DataFrame). -/
abbrev Table := List Row

/-- Abstraction of the decimal-literal grammar accepted by `float(...)` and
`pd.to_numeric`: optional sign, digits with at most one dot, at least one
digit.  (Exponents, inf/nan are ignored; no theorem depends on the exact
grammar.) -/
def isNumericStr (s : String) : Bool :=
  let cs :=
    match s.data with
    | ('+') :: t => t
    | ('-') :: t => t
    | l => l
  cs.any (fun c => c.isDigit) &&
    cs.all (fun c => c.isDigit || c == ('.')) &&
    decide ((cs.filter (fun c => c == ('.'))).length ≤ 1)

/-- Abstraction of the datetime grammar accepted by `pd.to_datetime`:
digits separated by date/time punctuation.  No theorem depends on the
exact grammar. -/
def parsesAsDatetime (s : String) : Bool :=
  s.data.any (fun c => c.isDigit) &&
    s.data.all (fun c =>
      c.isDigit || c == ('-') || c == (':') || c == (' ') || c == ('/') || c == ('T'))

/-- The kinds of per-column coercion rules occurring in
`DataProcessor.get_converters`:
* `toStr`        — the `str` constructor (string-preserve);
* `toFloat`      — the bare `float` constructor (raises on non-numeric input);
* `toNumericCoerce`  — `lambda x: pd.to_numeric(x, errors='coerce')`;
* `toDatetimeCoerce` — `lambda x: pd.to_datetime(x, errors='coerce')`. -/
inductive Conv where
  | toStr : Conv
  | toFloat : Conv
  | toNumericCoerce : Conv
  | toDatetimeCoerce : Conv
deriving DecidableEq

/-- A rule is marked numeric when it produces a numeric column
(`pd.to_numeric` lambda or the bare `float` constructor). -/
def isNumericRule : Conv → Bool
  | Conv.toFloat => true
  | Conv.toNumericCoerce => true
  | _ => false

/-- Applying one coercion rule to one raw cell.  `float` raises a
`ValueError` on non-numeric input; the `errors='coerce'` variants never
raise and turn unparsable input into the missing marker. -/
def applyConv : Conv → String → Except String Value
  | Conv.toStr, s => Except.ok (Value.vstr s)
  | Conv.toFloat, s =>
      if isNumericStr s then Except.ok (Value.vnum s)
      else Except.error (("could not convert string to float: ") ++ s)
  | Conv.toNumericCoerce, s =>
      Except.ok (if isNumericStr s then Value.vnum s else Value.vNA)
  | Conv.toDatetimeCoerce, s =>
      Except.ok (if parsesAsDatetime s then Value.vdate s else Value.vNA)

/-- The TAG coercion-rule table of `DataProcessor.get_converters`. -/
def tag_converter_table : List (String × Conv) :=
  [(("id_log"), Conv.toStr),
   (("carrinho"), Conv.toStr),
   (("transactionid"), Conv.toStr),
   (("plataform"), Conv.toStr),
   (("storeid"), Conv.toStr),
   (("nm_brand"), Conv.toStr),
   (("nm_category_l5"), Conv.toStr),
   (("ean"), Conv.toStr),
   (("nm_manufacturer"), Conv.toStr),
   (("mktsaleid"), Conv.toStr),
   (("productname"), Conv.toStr),
   (("sku"), Conv.toStr),
   (("nm_subbrand"), Conv.toStr),
   (("value"), Conv.toStr),
   (("zipcode"), Conv.toStr),
   (("gender"), Conv.toStr),
   (("productcondition"), Conv.toStr),
   (("quantity"), Conv.toStr),
   (("deliverytax"), Conv.toNumericCoerce),
   (("deliverytime"), Conv.toNumericCoerce),
   (("deliverytype"), Conv.toNumericCoerce),
   (("parcels"), Conv.toNumericCoerce),
   (("paymenttype"), Conv.toNumericCoerce),
   (("cardflag"), Conv.toNumericCoerce),
   (("invoiceemissor"), Conv.toNumericCoerce),
   (("totalspent"), Conv.toNumericCoerce),
   (("datacomp"), Conv.toDatetimeCoerce),
   (("birthday"), Conv.toDatetimeCoerce)]

/-- The API coercion-rule table of `DataProcessor.get_converters`. -/
def api_converter_table : List (String × Conv) :=
  [(("id_api_hit"), Conv.toStr),
   (("id_store"), Conv.toStr),
   (("id_transaction"), Conv.toStr),
   (("dt_transaction"), Conv.toDatetimeCoerce),
   (("nm_platform"), Conv.toStr),
   (("nm_gender"), Conv.toStr),
   (("cd_zipcode"), Conv.toStr),
   (("qt_parcel"), Conv.toNumericCoerce),
   (("vl_totalspent"), Conv.toNumericCoerce),
   (("cd_paymenttype"), Conv.toNumericCoerce),
   (("cd_cardflag"), Conv.toNumericCoerce),
   (("cd_invoiceemissor"), Conv.toNumericCoerce),
   (("nm_age"), Conv.toNumericCoerce),
   (("nm_birthday"), Conv.toDatetimeCoerce),
   (("nm_lastmile"), Conv.toNumericCoerce),
   (("id_log"), Conv.toStr),
   (("dt_process_header"), Conv.toDatetimeCoerce),
   (("dt_process_detail"), Conv.toDatetimeCoerce),
   (("dt_import"), Conv.toDatetimeCoerce),
   (("cd_sku"), Conv.toStr),
   (("cd_ean"), Conv.toStr),
   (("nm_product"), Conv.toStr),
   (("vl_product"), Conv.toNumericCoerce),
   (("qt_product"), Conv.toNumericCoerce),
   (("cd_productcondition"), Conv.toNumericCoerce),
   (("nm_deliverytype"), Conv.toNumericCoerce),
   (("vl_deliverytax"), Conv.toNumericCoerce),
   (("qt_deliverytime"), Conv.toNumericCoerce),
   (("nm_mktsaleid"), Conv.toStr),
   (("nm_model"), Conv.toStr),
   (("nm_manufacturer"), Conv.toStr),
   (("nm_brand"), Conv.toStr),
   (("nm_subbrand"), Conv.toStr),
   (("nm_catl1"), Conv.toStr),
   (("nm_catl2"), Conv.toStr),
   (("nm_catl3"), Conv.toStr),
   (("nm_catl4"), Conv.toStr),
   (("nm_catl5"), Conv.toStr),
   (("tx_fulldescription"), Conv.toStr),
   (("tx_fullpath"), Conv.toStr),
   (("cd_pack"), Conv.toNumericCoerce),
   (("cd_promo"), Conv.toNumericCoerce),
   (("cd_ownbrand"), Conv.toNumericCoerce),
   (("cd_intll"), Conv.toNumericCoerce),
   (("nm_origin"), Conv.toStr)]

/-- The AMAZON coercion-rule table of `DataProcessor.get_converters`.
Note: its numeric columns use the bare `float` constructor, not
`pd.to_numeric(..., errors='coerce')`. -/
def amazon_converter_table : List (String × Conv) :=
  [(("asin"), Conv.toStr),
   (("ean1"), Conv.toStr),
   (("dest_country"), Conv.toStr),
   (("item_name"), Conv.toStr),
   (("source_country"), Conv.toStr),
   (("date"), Conv.toDatetimeCoerce),
   (("date_granularity"), Conv.toStr),
   (("business_group"), Conv.toStr),
   (("postal_code"), Conv.toStr),
   (("base_currency_code"), Conv.toStr),
   (("our_price"), Conv.toFloat),
   (("distinct_order_count"), Conv.toFloat),
   (("shipped_units"), Conv.toFloat),
   (("shipped_sales"), Conv.toFloat),
   (("shipped_sales_w_tax"), Conv.toFloat),
   (("shipped_sales_after_discount"), Conv.toFloat),
   (("shipped_sales_w_tax_after_discount"), Conv.toFloat),
   (("promotion"), Conv.toStr)]

/-- `DataProcessor.get_converters`: dictionary of converters per file type;
raises `ValueError` for an unknown type (branch order as in the source:
TAG, API, AMAZON, else raise). -/
def get_converters (type : String) : Except String (List (String × Conv)) :=
  if type = ("TAG") then Except.ok tag_converter_table
  else if type = ("API") then Except.ok api_converter_table
  else if type = ("AMAZON") then Except.ok amazon_converter_table
  else Except.error (("File type unknown: ") ++ type)

/-- `DataProcessor`: object state, `file_path` and the mutable
`file_type` field (initialized to `None`). -/
structure DataProcessor where
  file_path : String
  file_type : Option String
deriving DecidableEq

/-- Python `str.lower()`, modelled character-wise.  (`String.toLower` is
extensionally the same function but is implemented with `String.mapAux`,
which does not reduce inside the kernel.) -/
def strLower (s : String) : String :=
  String.mk (s.data.map Char.toLower)

/-- The classification chain of `DataProcessor.get_file_type`: lower-case
all column names, then the `match`/`case` guards in source order
(API, TAG, AMAZON, else `None`). -/
def classifyColumns (columns : List String) : Option String :=
  let cols := columns.map strLower
  if cols.contains ("id_api_hit") || cols.contains ("dt_transaction") then some ("API")
  else if cols.contains ("id_log") || cols.contains ("datacomp") then some ("TAG")
  else if cols.contains ("asin") || cols.contains ("postal_code") then some ("AMAZON")
  else none

/-- `DataProcessor.get_file_type(self, df)`: computes the classification
from the column names of `df`, assigns it to `self.file_type`, and returns
it.  Modelled as a state transformer returning (result, updated self). -/
def DataProcessor.get_file_type (self : DataProcessor) (dfColumns : List String) :
    Option String × DataProcessor :=
  let ft := classifyColumns dfColumns
  (ft, { self with file_type := ft })

/-- Index of the last occurrence of a character in a character list
(Python `str.rfind`, as an `Option`). -/
def lastIdxOf (c : Char) : List Char → Option Nat
  | [] => none
  | a :: l =>
      match lastIdxOf c l with
      | some i => some (i + 1)
      | none => if a == c then some 0 else none

/-- `os.path.splitext` on a posix path (CPython `genericpath._splitext`
with `sep = '/'`, `extsep = '.'`): split at the last dot of the basename,
unless every character of the basename before that dot is itself a dot
(so `.bashrc` keeps no extension).  The returned extension is therefore
always empty or dot-prefixed. -/
def splitextBaseStart (p : List Char) : Nat :=
  match lastIdxOf ('/') p with
  | some i => i + 1
  | none => 0

/-- The basename of a posix path: everything after the last separator. -/
def pathBase (p : List Char) : List Char :=
  p.drop (splitextBaseStart p)

def splitext (p : List Char) : List Char × List Char :=
  match lastIdxOf ('.') (pathBase p) with
  | none => (p, [])
  | some d =>
      if ((pathBase p).takeWhile (fun c => c == ('.'))).length < d then
        (p.take (splitextBaseStart p + d), (pathBase p).drop d)
      else (p, [])

/-- `os.path.splitext(self.file_path)[1].lower()` — the lower-cased
extension used for dispatch in `DataProcessor.process_file`. -/
def file_ext (file_path : String) : List Char :=
  ((splitext file_path.data).2).map Char.toLower

/-- The inline header-only classification inside the `.csv` and
`.xls`/`.xlsx` branches of `process_file`.  It tests the *lower-case
literals* (`'id_api_hit'.lower()` etc.) against the raw, un-lowered
header columns, and has no AMAZON case; when no branch matches, the
local `converters` stays unbound. -/
def inline_converter_choice (columns : List String) : Option String :=
  if columns.contains ("id_api_hit") || columns.contains ("dt_transaction") then some ("API")
  else if columns.contains ("id_log") || columns.contains ("datacomp") then some ("TAG")
  else none

/-- `pd.read_csv` / `pd.read_excel` with a converters dictionary: each
raw cell of a column with a registered rule goes through that rule
(a raised converter error propagates); cells of other columns are kept
as raw strings (abstracting pandas dtype inference). -/
def read_with_converters (header : List String) (rows : List (List String))
    (convs : List (String × Conv)) : Except String Table :=
  rows.mapM (fun raw =>
    (header.zip raw).mapM (fun cell =>
      match convs.lookup cell.1 with
      | some cv => (applyConv cv cell.2).map (fun v => (cell.1, v))
      | none => Except.ok (cell.1, Value.vstr cell.2)))

/-- The raw input file, already split per format strategy:
a delimited/spreadsheet file is a header plus raw-string rows; an XML
file is its list of top-level items (child tag → text); a JSON file is
its array of key-value records. -/
inductive FileData where
  | csv : List String → List (List String) → FileData
  | xmlData : List (List (String × String)) → FileData
  | jsonData : List (List (String × String)) → FileData
  | excel : List String → List (List String) → FileData
deriving DecidableEq

/-- `df.replace('', pd.NA)` on one cell. -/
def normalizeCell (v : Value) : Value :=
  if v = Value.vstr ("") then Value.vNA else v

/-- `df = df.replace('', pd.NA)`: every empty-string cell becomes the
missing marker. -/
def replaceEmpty (t : Table) : Table :=
  t.map (fun row => row.map (fun cv => (cv.1, normalizeCell cv.2)))

/-- The extension-dispatch chain of `DataProcessor.process_file`, up to
(but not including) the final `df.replace('', pd.NA)`:
* `.csv` / `.xls` / `.xlsx`: probe the header, choose converters with the
  inline (case-sensitive, AMAZON-less) classification; when neither branch
  matched, the local `converters` is unbound and the `pd.read_csv` /
  `pd.read_excel` call raises `UnboundLocalError`;
* `.xml` / `.json`: build the table directly from the parsed content,
  all cells raw strings, no coercion;
* `'txt000'`: probes the header with a pipe delimiter and selects the
  AMAZON converters, but never assigns `df`, so the `df.replace` line
  after the chain raises `UnboundLocalError` (the error is attributed to
  this branch here);
* anything else: `raise ValueError("Unsupported file format")`.
A file whose content does not match the strategy of its extension is a
fatal parse failure (spec §4.2 failure policy). -/
def readBranch (file_path : String) (file : FileData) : Except String Table :=
  if file_ext file_path = (".csv").data then
    match file with
    | FileData.csv header rows =>
        match inline_converter_choice header with
        | some t =>
            match get_converters t with
            | Except.ok convs => read_with_converters header rows convs
            | Except.error e => Except.error e
        | none =>
            Except.error ("UnboundLocalError: local variable converters referenced before assignment")
    | _ => Except.error ("Parse-Failure: file content does not match the csv strategy")
  else if file_ext file_path = (".xml").data then
    match file with
    | FileData.xmlData items =>
        Except.ok (items.map (fun row => row.map (fun kv => (kv.1, Value.vstr kv.2))))
    | _ => Except.error ("Parse-Failure: file content does not match the xml strategy")
  else if file_ext file_path = (".json").data then
    match file with
    | FileData.jsonData records =>
        Except.ok (records.map (fun row => row.map (fun kv => (kv.1, Value.vstr kv.2))))
    | _ => Except.error ("Parse-Failure: file content does not match the json strategy")
  else if file_ext file_path = (".xls").data ∨ file_ext file_path = (".xlsx").data then
    match file with
    | FileData.excel header rows =>
        match inline_converter_choice header with
        | some t =>
            match get_converters t with
            | Except.ok convs => read_with_converters header rows convs
            | Except.error e => Except.error e
        | none =>
            Except.error ("UnboundLocalError: local variable converters referenced before assignment")
    | _ => Except.error ("Parse-Failure: file content does not match the excel strategy")
  else if file_ext file_path = ("txt000").data then
    Except.error ("UnboundLocalError: local variable df referenced before assignment")
  else
    Except.error ("Unsupported file format")

/-- `DataProcessor.process_file`: dispatch on the extension, then apply
the final `df = df.replace('', pd.NA)` to whatever table the branch
produced. -/
def process_file (file_path : String) (file : FileData) : Except String Table :=
  (readBranch file_path file).map replaceEmpty

/-- The payload of an error record is the error text; a successful check
deposits a tabular sample.  Both are wrapped in `RecordPayload`. -/
inductive RecordPayload where
  | tbl : Table → RecordPayload
  | txt : String → RecordPayload
deriving DecidableEq

/-- A Check Result Record, `[check_name, occurrences, payload, type]` as
deposited in `output_dict`. -/
structure CheckRecord where
  check_name : String
  occurrences : Nat
  payload : RecordPayload
  validation_type : String
deriving DecidableEq

/-- `self.output_dict`: a Python dict from check index to record,
modelled as an insertion-ordered association list. -/
abbrev OutputDict := List (Nat × CheckRecord)

/-- Python dict assignment `d[k] = v`: update in place when the key is
present (its position is kept), append otherwise. -/
def dinsert (d : OutputDict) (k : Nat) (v : CheckRecord) : OutputDict :=
  if d.any (fun p => p.1 == k) then
    d.map (fun p => if p.1 == k then (k, v) else p)
  else d ++ [(k, v)]

/-- Insert a pair into a key-sorted association list (ascending keys). -/
def insertByKey (p : Nat × CheckRecord) : OutputDict → OutputDict
  | [] => [p]
  | q :: l => if p.1 ≤ q.1 then p :: q :: l else q :: insertByKey p l

/-- `dict(sorted(self.output_dict.items()))`: re-order the collection by
ascending key (keys are distinct indices, so any sort agrees with
Python's). -/
def sortByKey : OutputDict → OutputDict
  | [] => []
  | p :: l => insertByKey p (sortByKey l)

/-- Modelled from the spec: the bodies of the individual validation
checks (`columns_completness`, `sales_validation`, ...) are not part of the
repository sources; per spec sections 3 and 4.3 a check is a named function
of the canonical table that either succeeds — producing the finding it
deposits at its own index: an occurrence count, a payload, and a
classification tag — or raises, with the error message captured by the
runner. -/
structure Check where
  name : String
  behavior : Table → Except String (Nat × RecordPayload × String)

/-- An entry of a registered `methods` list.  `Validations_API` registers
bound methods (`check`); `Validations_TAG`'s list instead holds one
triple-quoted string literal (`strLit`) — the method names were wrapped
in a string in the source. -/
inductive RegItem where
  | check : Check → RegItem
  | strLit : String → RegItem

/-- The uncaught exception that aborts a run when the loop handler
evaluates `method.__name__` on an item that is a string, not a callable
(Python: AttributeError). -/
def attrErrorMsg : String :=
  "AttributeError: str object has no attribute __name__"

/-- One iteration of the runner loop (the `try`/`except` body shared by
`Validations_API.run_methods` and `Validations_TAG.run_methods`):
* a callable check that raises is caught and the record
  `[method.__name__, df_raw.shape[0], str(e), 'Error']` is deposited at
  the loop index (from the source `except` branch);
* a callable check that succeeds deposits its own finding at its own
  index (modelled from the spec, see `Check`);
* a string item is not callable — the TypeError is caught, but the
  handler itself then raises an uncaught AttributeError on
  `method.__name__`, aborting the run. -/
def runStep (df_raw : Table) (d : OutputDict) (index : Nat) :
    RegItem → Except String OutputDict
  | RegItem.check c =>
      match c.behavior df_raw with
      | Except.ok r =>
          Except.ok (dinsert d index ⟨c.name, r.1, r.2.1, r.2.2⟩)
      | Except.error e =>
          Except.ok (dinsert d index ⟨c.name, df_raw.length, RecordPayload.txt e, ("Error")⟩)
  | RegItem.strLit _ => Except.error attrErrorMsg

/-- The runner loop `for index, method in enumerate(methods, start=0)`,
threading the shared `output_dict` and the running index. -/
def runFrom (df_raw : Table) : Nat → List RegItem → OutputDict → Except String OutputDict
  | _, [], d => Except.ok d
  | i, it :: rest, d =>
      match runStep df_raw d i it with
      | Except.ok d2 => runFrom df_raw (i + 1) rest d2
      | Except.error e => Except.error e

/-- `run_methods` (textually identical loop in `Validations_API` and
`Validations_TAG`): run every registered item in order starting from an
empty `output_dict`, then
`self.output_dict = dict(sorted(self.output_dict.items()))`. -/
def run_methods (methods : List RegItem) (df_raw : Table) : Except String OutputDict :=
  (runFrom df_raw 0 methods []).map sortByKey

/-- The registered `methods` list of `Validations_TAG.run_methods`: a
single triple-quoted string literal holding the would-be method names
(whitespace compressed here; the content is never read by the loop). -/
def Validations_TAG.registered_methods : List RegItem :=
  [RegItem.strLit ("\n self.columns_completness,\n self.sales_validation,\n self.paymenttype_validation,\n self.size_comparison,\n self.totalspent_match_total,\n self.zipcode_length,\n self.duplicated_ids,\n self.wrong_columns_with_pipe,\n self.sales_validation_split,\n self.repeated_productname,\n #self.ean_productname_validation,\n #self.sku_productname_validation,\n #self.test_validation,\n self.platform_conformity,\n self.gender_conformity,\n self.parcels_conformity,\n self.value_conformity,\n self.quantity_conformity,\n self.totalspent_conformity,\n self.deliverytax_conformity,\n self.deliverytime_conformity,\n self.deliverytype_conformity,\n self.paymenttype_conformity,\n self.total_rows,\n self.total_columns,\n self.first_day,\n self.last_day,\n self.missing_days,\n self.prodcondition_conformity,\n self.invoiceemissor_conformity,\n self.cardflag_conformity,\n self.duplicated_all,\n self.totalspent_threshold,\n self.totalspent_outlier,\n self.undefined_count,\n self.marketplace_analysis,\n self.storeid_null\n")]

/-- `Validations_TAG.run_methods(self)` applied to a raw dataset. -/
def Validations_TAG_run_methods (df_raw : Table) : Except String OutputDict :=
  run_methods Validations_TAG.registered_methods df_raw

/-- The names registered (as bound methods) in
`Validations_API.run_methods`; the method bodies are absent from the
repository sources (see `Check`). -/
def Validations_API.registered_method_names : List String :=
  [("columns_completness"), ("sales_validation"), ("paymenttype_validation"),
   ("totalspent_match_total"), ("zipcode_length"), ("duplicated_ids"),
   ("sales_validation_split"), ("platform_conformity"), ("value_conformity"),
   ("quantity_conformity"), ("totalspent_conformity"), ("deliverytax_conformity"),
   ("deliverytime_conformity"), ("deliverytype_conformity"), ("paymenttype_conformity"),
   ("total_rows"), ("total_columns"), ("first_day"), ("last_day"),
   ("missing_days"), ("cardflag_conformity"), ("invoiceemissor_conformity"),
   ("productcondition_conformity"), ("duplicated_all"), ("totalspent_threshold"),
   ("totalspent_outlier"), ("undefined_count"), ("marketplace_analysis")]

/-- The outcome of the `__main__` dispatch on `file_type`
(src/main.py, lines 12-19). -/
inductive MainAction where
  | runValidationsAPI : MainAction
  | runValidationsTAG : MainAction
  | noReport : MainAction
deriving DecidableEq

/-- The entry-point branch:
`if file_type == "API": run Validations_API; elif file_type == "TAG": run Validations_TAG; else: print("Couldnt assign Technology (API, TAG or Amazon) to sample ran")`. -/
def mainDispatch (fileType : Option String) : MainAction :=
  if fileType = some ("API") then MainAction.runValidationsAPI
  else if fileType = some ("TAG") then MainAction.runValidationsTAG
  else MainAction.noReport

/-- Source types as named by the spec (section 3). -/
inductive SourceType where
  | API : SourceType
  | TAG : SourceType
  | AMAZON : SourceType
  | UNKNOWN : SourceType
deriving DecidableEq

/-- The spec-side schema signatures (section 6), in priority order:
marker set and resulting type. -/
def signature_table : List (List String × SourceType) :=
  [((["id_api_hit", "dt_transaction"] : List String), SourceType.API),
   ((["id_log", "datacomp"] : List String), SourceType.TAG),
   ((["asin", "postal_code"] : List String), SourceType.AMAZON)]

/-- The spec-side priority classifier (section 4.1): first entry whose
marker set intersects the column set wins; otherwise UNKNOWN. -/
def priorityClassify : List (List String × SourceType) → List String → SourceType
  | [], _ => SourceType.UNKNOWN
  | (markers, t) :: rest, cols =>
      if markers.any (fun m => cols.contains m) then t
      else priorityClassify rest cols

/-- The spec-side Type Detector: lower-case the column names (the
case-insensitive matching of the spec), then classify by signature
priority. -/
def specClassify (columns : List String) : SourceType :=
  priorityClassify signature_table (columns.map strLower)

/-- The value `DataProcessor.get_file_type` returns for each spec-side
source type (`None` for UNKNOWN). -/
def SourceType.toPy : SourceType → Option String
  | SourceType.API => some ("API")
  | SourceType.TAG => some ("TAG")
  | SourceType.AMAZON => some ("AMAZON")
  | SourceType.UNKNOWN => none

/-! ## Helper lemmas -/

/-- A successful `lastIdxOf` points at an occurrence: the suffix from the
returned index starts with the sought character. -/
theorem lastIdxOf_drop {c : Char} : ∀ {l : List Char} {i : Nat},
    lastIdxOf c l = some i → ∃ t, l.drop i = c :: t := by
  intro l
  induction l with
  | nil => intro i h; simp [lastIdxOf] at h
  | cons a l ih =>
      intro i h
      rw [lastIdxOf] at h
      cases hl : lastIdxOf c l with
      | some j =>
          rw [hl] at h
          cases h
          exact ih hl
      | none =>
          rw [hl] at h
          by_cases hac : a == c
          · rw [if_pos hac] at h
            cases h
            exact ⟨l, by rw [List.drop_zero, eq_of_beq hac]⟩
          · rw [if_neg hac] at h
            cases h

/-- The extension part returned by `splitext` is empty or starts with a
dot. -/
theorem splitext_ext_empty_or_dot (p : List Char) :
    (splitext p).2 = [] ∨ ∃ t, (splitext p).2 = ('.') :: t := by
  cases hd : lastIdxOf ('.') (pathBase p) with
  | none => exact Or.inl (by simp [splitext, hd])
  | some d =>
      by_cases hlt : ((pathBase p).takeWhile (fun c => c == ('.'))).length < d
      · refine Or.inr ?_
        have hext : (splitext p).2 = (pathBase p).drop d := by
          simp [splitext, hd, hlt]
        rw [hext]
        exact lastIdxOf_drop hd
      · exact Or.inl (by simp [splitext, hd, hlt])

/-- The lower-cased extension used for dispatch is empty or starts with a
dot — so it can never literally equal `txt000`. -/
theorem file_ext_empty_or_dot (fp : String) :
    file_ext fp = [] ∨ ∃ t, file_ext fp = ('.') :: t := by
  unfold file_ext
  rcases splitext_ext_empty_or_dot fp.data with h | ⟨t, h⟩
  · exact Or.inl (by rw [h]; rfl)
  · refine Or.inr ⟨t.map Char.toLower, ?_⟩
    rw [h]
    rfl

theorem file_ext_ne_txt000 (fp : String) : file_ext fp ≠ ("txt000").data := by
  rcases file_ext_empty_or_dot fp with h | ⟨t, h⟩ <;> rw [h]
  · intro hcontr; exact List.noConfusion hcontr
  · intro hcontr
    injection hcontr with h1 _
    exact absurd h1 (by decide)

/-- Python dict assignment with a fresh key appends to the insertion
order. -/
theorem dinsert_of_not_mem (d : OutputDict) (k : Nat) (v : CheckRecord)
    (h : ∀ p ∈ d, p.1 ≠ k) : dinsert d k v = d ++ [(k, v)] := by
  have hany : (d.any (fun p => p.1 == k)) = false := by
    rw [List.any_eq_false]
    intro p hp
    simpa using h p hp
  simp [dinsert, hany]

/-- Loop invariant of the runner: starting at index `i` with an
`output_dict` whose keys are exactly `0, …, i-1` in order, a completed
run over the remaining items extends the keys to `0, …, i+len-1` in
order (each iteration deposits at its fresh loop index). -/
theorem runFrom_keys (df_raw : Table) :
    ∀ (items : List RegItem) (i : Nat) (d d2 : OutputDict),
      List.map Prod.fst d = List.range i →
      runFrom df_raw i items d = Except.ok d2 →
      List.map Prod.fst d2 = List.range (i + items.length) := by
  intro items
  induction items with
  | nil =>
      intro i d d2 hd hrun
      simp only [runFrom] at hrun
      cases hrun
      simpa using hd
  | cons it rest ih =>
      intro i d d2 hd hrun
      have hfresh : ∀ rec : CheckRecord,
          List.map Prod.fst (dinsert d i rec) = List.range (i + 1) := by
        intro rec
        rw [dinsert_of_not_mem]
        · simp [hd, List.range_succ]
        · intro p hp hpk
          have hmem : p.1 ∈ List.map Prod.fst d := List.mem_map_of_mem _ hp
          rw [hd, hpk] at hmem
          exact absurd (List.mem_range.mp hmem) (lt_irrefl i)
      have harith : i + 1 + rest.length = i + (rest.length + 1) := by omega
      rw [List.length_cons]
      cases it with
      | strLit s => simp [runFrom, runStep] at hrun
      | check c =>
          cases hb : c.behavior df_raw with
          | ok r =>
              have hrun2 : runFrom df_raw (i + 1) rest
                  (dinsert d i ⟨c.name, r.1, r.2.1, r.2.2⟩) = Except.ok d2 := by
                simpa [runFrom, runStep, hb] using hrun
              have := ih (i + 1) _ d2 (hfresh _) hrun2
              rwa [harith] at this
          | error e =>
              have hrun2 : runFrom df_raw (i + 1) rest
                  (dinsert d i ⟨c.name, df_raw.length, RecordPayload.txt e, ("Error")⟩) =
                  Except.ok d2 := by
                simpa [runFrom, runStep, hb] using hrun
              have := ih (i + 1) _ d2 (hfresh _) hrun2
              rwa [harith] at this

/-- Sorting a collection whose keys are already consecutive ascending
naturals is the identity. -/
theorem sortByKey_eq_self : ∀ (l : OutputDict) (a n : Nat),
    List.map Prod.fst l = List.range' a n → sortByKey l = l := by
  intro l
  induction l with
  | nil => intro a n _; rfl
  | cons p rest ih =>
      intro a n hmap
      cases n with
      | zero => simp at hmap
      | succ m =>
          rw [List.range'_succ] at hmap
          simp only [List.map_cons, List.cons.injEq] at hmap
          obtain ⟨hp1, hrest⟩ := hmap
          have hsort : sortByKey rest = rest := ih (a + 1) m hrest
          rw [sortByKey, hsort]
          cases rest with
          | nil => rfl
          | cons q rest2 =>
              cases m with
              | zero => simp at hrest
              | succ m2 =>
                  rw [List.range'_succ] at hrest
                  simp only [List.map_cons, List.cons.injEq] at hrest
                  have hq : q.1 = a + 1 := hrest.1
                  rw [insertByKey, if_pos]
                  rw [hp1, hq]
                  omega

/-- No cell of the table is the (non-missing) empty string. -/
def NoEmptyCell (t : Table) : Prop :=
  ∀ row ∈ t, ∀ cv ∈ row, cv.2 ≠ Value.vstr ("")

/-- The empty-to-missing rewrite leaves no empty-string cell behind. -/
theorem noEmptyCell_replaceEmpty (t : Table) : NoEmptyCell (replaceEmpty t) := by
  intro row hrow cv hcv
  simp only [replaceEmpty, List.mem_map] at hrow
  obtain ⟨r0, _, hr0⟩ := hrow
  subst hr0
  simp only [List.mem_map] at hcv
  obtain ⟨c0, _, hc0⟩ := hcv
  subst hc0
  simp only [normalizeCell]
  by_cases h0 : c0.2 = Value.vstr ("")
  · rw [if_pos h0]
    intro hcontr
    exact Value.noConfusion hcontr
  · rwa [if_neg h0]

/-- Normalizing a single cell twice is the same as normalizing it once. -/
theorem normalizeCell_idem (v : Value) :
    normalizeCell (normalizeCell v) = normalizeCell v := by
  by_cases h : v = Value.vstr ("")
  · simp [normalizeCell, h]
  · simp [normalizeCell, h]

/-- Lower-casing a list of already-lower-case strings is the identity. -/
theorem map_toLower_id {cols : List String} (h : ∀ c ∈ cols, strLower c = c) :
    cols.map strLower = cols := by
  induction cols with
  | nil => rfl
  | cons a l ih =>
      rw [List.map_cons, h a (List.mem_cons_self a l),
        ih (fun c hc => h c (List.mem_cons_of_mem a hc))]

/-! ## Claim theorems -/

/-- Claim C1 (code evaluation at the failing input): for every dataset,
`Validations_TAG.run_methods` aborts with an uncaught AttributeError on
its very first registered item — the list holds one string literal, the
caught TypeError's handler evaluates `method.__name__` on that string,
and the run deposits nothing instead of an Error record. -/
theorem Validations_TAG_run_methods_aborts (df_raw : Table) :
    Validations_TAG_run_methods df_raw = Except.error attrErrorMsg := rfl

/-- Claim C2: whenever a run of the check-runner loop completes, the
frozen result aggregate has exactly the keys `0, …, n-1` for the `n`
registered items, in ascending order — one record per registered check,
no duplicates, no gaps, however many checks failed. -/
theorem run_methods_keys_exactly_range (methods : List RegItem) (df_raw : Table)
    (d : OutputDict) (h : run_methods methods df_raw = Except.ok d) :
    List.map Prod.fst d = List.range methods.length := by
  unfold run_methods at h
  cases hrun : runFrom df_raw 0 methods [] with
  | error e => rw [hrun] at h; simp [Except.map] at h
  | ok d0 =>
      rw [hrun] at h
      simp only [Except.map] at h
      injection h with h
      subst h
      have hkeys := runFrom_keys df_raw methods 0 [] d0 (by simp) hrun
      rw [Nat.zero_add] at hkeys
      rw [sortByKey_eq_self d0 0 methods.length (by rw [hkeys, List.range_eq_range'])]
      exact hkeys

/-- A demonstration check that always succeeds, depositing the full table
as its sample. -/
def demo_check_rows : Check :=
  { name := ("total_rows"),
    behavior := fun df => Except.ok (df.length, RecordPayload.tbl df, ("Info")) }

/-- A demonstration check that always raises (a column is absent). -/
def demo_check_zip : Check :=
  { name := ("zipcode_length"),
    behavior := fun _ => Except.error ("KeyError: zipcode") }

/-- A second demonstration check that always succeeds. -/
def demo_check_cols : Check :=
  { name := ("total_columns"),
    behavior := fun _ => Except.ok (1, RecordPayload.txt ("1"), ("Info")) }

/-- A three-item registered list: success, failure, success. -/
def demo_methods : List RegItem :=
  [RegItem.check demo_check_rows, RegItem.check demo_check_zip,
   RegItem.check demo_check_cols]

/-- A two-row demonstration dataset. -/
def demo_table : Table :=
  [[(("a"), Value.vstr ("1"))], [(("a"), Value.vstr ("2"))]]

/-- The aggregate produced by running `demo_methods` on `demo_table`. -/
def demo_output : OutputDict :=
  [(0, ⟨("total_rows"), 2, RecordPayload.tbl demo_table, ("Info")⟩),
   (1, ⟨("zipcode_length"), 2, RecordPayload.txt ("KeyError: zipcode"), ("Error")⟩),
   (2, ⟨("total_columns"), 1, RecordPayload.txt ("1"), ("Info")⟩)]

/-- Witness for claim C2: a concrete three-check run (one check failing)
whose aggregate has exactly the keys 0, 1, 2 in order. -/
theorem run_methods_keys_exactly_range_witness :
    List.map Prod.fst demo_output = List.range 3 :=
  run_methods_keys_exactly_range demo_methods demo_table demo_output (by rfl)

/-- Claim C3: the Type Detector `get_file_type` agrees, on every column
set, with the spec-side priority classifier (case-insensitive marker
sets in the order API, TAG, AMAZON, else UNKNOWN). -/
theorem get_file_type_matches_signature_priority (dp : DataProcessor)
    (columns : List String) :
    (DataProcessor.get_file_type dp columns).1 = (specClassify columns).toPy := by
  simp only [DataProcessor.get_file_type, classifyColumns, specClassify,
    priorityClassify, signature_table, List.any_cons, List.any_nil, Bool.or_false]
  split_ifs <;> rfl

/-- Claim C4 counterexample: the AMAZON rule table marks `our_price` as
numeric via the bare `float` constructor, and applying it to the
non-numeric value `abc` raises a ValueError instead of yielding the
missing marker. -/
theorem amazon_numeric_rule_raises :
    ((("our_price"), Conv.toFloat) ∈ amazon_converter_table) ∧
    isNumericRule Conv.toFloat = true ∧
    isNumericStr ("abc") = false ∧
    applyConv Conv.toFloat ("abc") =
      Except.error ("could not convert string to float: abc") :=
  ⟨by decide, rfl, by decide, rfl⟩

/-- Claim C4 (amended): every numeric-marked rule of the API and TAG
tables coerces a non-numeric source value to the missing marker and
never raises; the numeric-marked rules of the AMAZON table instead use
the bare `float` constructor and raise on every non-numeric value. -/
theorem numeric_rules_coerce_api_tag_raise_amazon :
    (∀ p : String × Conv, (p ∈ api_converter_table ∨ p ∈ tag_converter_table) →
        isNumericRule p.2 = true →
        ∀ s : String, isNumericStr s = false →
          applyConv p.2 s = Except.ok Value.vNA) ∧
    (∀ p : String × Conv, p ∈ amazon_converter_table →
        isNumericRule p.2 = true →
        ∀ s : String, isNumericStr s = false →
          applyConv p.2 s =
            Except.error (("could not convert string to float: ") ++ s)) := by
  constructor
  · intro p hp hnum s hs
    have hApi : ∀ q ∈ api_converter_table,
        isNumericRule q.2 = true → q.2 = Conv.toNumericCoerce := by decide
    have hTag : ∀ q ∈ tag_converter_table,
        isNumericRule q.2 = true → q.2 = Conv.toNumericCoerce := by decide
    have hconv : p.2 = Conv.toNumericCoerce := by
      rcases hp with hp | hp
      · exact hApi p hp hnum
      · exact hTag p hp hnum
    rw [hconv]
    simp [applyConv, hs]
  · intro p hp hnum s hs
    have hAmz : ∀ q ∈ amazon_converter_table,
        isNumericRule q.2 = true → q.2 = Conv.toFloat := by decide
    rw [hAmz p hp hnum]
    simp [applyConv, hs]

/-- Witness for claim C4: the numeric API rule `qt_parcel` coerces `abc`
to the missing marker, while the numeric AMAZON rule `our_price` raises
on the same value. -/
theorem numeric_rules_coerce_api_tag_raise_amazon_witness :
    applyConv Conv.toNumericCoerce ("abc") = Except.ok Value.vNA ∧
    applyConv Conv.toFloat ("abc") =
      Except.error (("could not convert string to float: ") ++ ("abc")) :=
  ⟨numeric_rules_coerce_api_tag_raise_amazon.1 (("qt_parcel"), Conv.toNumericCoerce)
      (Or.inl (by decide)) rfl ("abc") (by decide),
   numeric_rules_coerce_api_tag_raise_amazon.2 (("our_price"), Conv.toFloat)
      (by decide) rfl ("abc") (by decide)⟩

/-- Claim C5 (code evaluation at the failing input): a `.csv` file whose
header matches no schema signature does not complete — the `converters`
local never gets assigned and the `pd.read_csv` call raises
UnboundLocalError, so the caller never reaches its no-technology
branch. -/
theorem process_file_unknown_csv_header_raises :
    process_file ("data.csv")
        (FileData.csv [("foo"), ("bar")] [[("1"), ("2")]]) =
      Except.error
        ("UnboundLocalError: local variable converters referenced before assignment") := rfl

/-- Claim C6 counterexample: a path carrying the literal `txt000` marker
as its extension is rejected with the Unsupported-Format error — the
pipe-delimited branch compares the dotted, lower-cased `splitext`
extension against the undotted literal `txt000` and can never match. -/
theorem txt000_marker_path_is_unsupported :
    process_file ("export.txt000") (FileData.csv [("asin")] []) =
      Except.error ("Unsupported file format") := rfl

/-- Claim C6 (amended): every path whose lower-cased `splitext` extension
is outside `{.csv, .xml, .json, .xls, .xlsx}` fails with the
Unsupported-Format error — in particular the dead `txt000` branch is
unreachable, since a real extension is always empty or dot-prefixed. -/
theorem unsupported_extension_rejected (fp : String) (file : FileData)
    (h : file_ext fp ∉
      [(".csv").data, (".xml").data, (".json").data, (".xls").data, (".xlsx").data]) :
    process_file fp file = Except.error ("Unsupported file format") := by
  simp only [List.mem_cons, List.not_mem_nil, or_false, not_or] at h
  obtain ⟨h1, h2, h3, h4, h5⟩ := h
  unfold process_file readBranch
  rw [if_neg h1, if_neg h2, if_neg h3, if_neg (not_or.mpr ⟨h4, h5⟩),
    if_neg (file_ext_ne_txt000 fp)]
  rfl

/-- Witness for claim C6: a `.pdf` file is rejected with the
Unsupported-Format error. -/
theorem unsupported_extension_rejected_witness :
    process_file ("report.pdf") (FileData.csv [] []) =
      Except.error ("Unsupported file format") :=
  unsupported_extension_rejected ("report.pdf") (FileData.csv [] []) (by decide)

/-- Claim C7: every table returned by `process_file` (any format branch)
has had its empty-string cells rewritten to the missing marker, and the
empty-to-missing normalization is idempotent. -/
theorem process_file_normalizes_empty_cells :
    (∀ (fp : String) (file : FileData) (t : Table),
        process_file fp file = Except.ok t → NoEmptyCell t) ∧
    (∀ t : Table, replaceEmpty (replaceEmpty t) = replaceEmpty t) := by
  constructor
  · intro fp file t h
    unfold process_file at h
    cases hb : readBranch fp file with
    | error e => rw [hb] at h; simp [Except.map] at h
    | ok t0 =>
        rw [hb] at h
        simp only [Except.map] at h
        injection h with h
        subst h
        exact noEmptyCell_replaceEmpty t0
  · intro t
    simp [replaceEmpty, List.map_map, Function.comp, normalizeCell_idem]

/-- The table produced by ingesting a one-record JSON file whose only
value is the empty string. -/
def demo_json_table : Table := [[(("k"), Value.vNA)]]

/-- Witness for claim C7: ingesting a JSON file with an empty-string
cell yields a table with no empty-string cell (the cell became `vNA`). -/
theorem process_file_normalizes_empty_cells_witness : NoEmptyCell demo_json_table :=
  process_file_normalizes_empty_cells.1 ("a.json")
    (FileData.jsonData [[(("k"), (""))]]) demo_json_table (by rfl)

/-- Claim C8 counterexample: the inline header probe of the delimited
branches disagrees with the standalone Type Detector — an upper-case API
header and a (lower-case) AMAZON header are classified by
`get_file_type` but select no coercion table inline. -/
theorem inline_probe_disagrees_with_detector :
    ((DataProcessor.get_file_type ⟨("f.csv"), none⟩ [("ID_API_HIT")]).1 = some ("API") ∧
      inline_converter_choice [("ID_API_HIT")] = none) ∧
    ((DataProcessor.get_file_type ⟨("f.csv"), none⟩ [("asin")]).1 = some ("AMAZON") ∧
      inline_converter_choice [("asin")] = none) :=
  ⟨⟨by decide, by decide⟩, ⟨by decide, by decide⟩⟩

/-- Claim C8 (amended): on headers whose column names are already
lower-case, the inline probe selects exactly the API or TAG table the
Type Detector would prescribe; it matches case-sensitively and omits the
AMAZON signature, so every other header (including AMAZON ones) selects
no coercion table. -/
theorem inline_probe_agrees_on_lowercase (columns : List String)
    (h : ∀ c ∈ columns, strLower c = c) :
    inline_converter_choice columns =
      (if classifyColumns columns = some ("API") then some ("API")
       else if classifyColumns columns = some ("TAG") then some ("TAG")
       else none) := by
  have hm : columns.map strLower = columns := map_toLower_id h
  by_cases h1 : (columns.contains ("id_api_hit") || columns.contains ("dt_transaction")) = true
  · have hL : inline_converter_choice columns = some ("API") := by
      simp only [inline_converter_choice, h1, if_true]
    have hC : classifyColumns columns = some ("API") := by
      simp only [classifyColumns, hm, h1, if_true]
    rw [hL, hC]
    simp
  · have h1f : (columns.contains ("id_api_hit") || columns.contains ("dt_transaction")) = false := by
      simpa using h1
    by_cases h2 : (columns.contains ("id_log") || columns.contains ("datacomp")) = true
    · have hL : inline_converter_choice columns = some ("TAG") := by
        simp only [inline_converter_choice, h1f, h2]
        simp
      have hC : classifyColumns columns = some ("TAG") := by
        simp only [classifyColumns, hm, h1f, h2]
        simp
      rw [hL, hC]
      simp
    · have h2f : (columns.contains ("id_log") || columns.contains ("datacomp")) = false := by
        simpa using h2
      have hL : inline_converter_choice columns = none := by
        simp only [inline_converter_choice, h1f, h2f]
        simp
      have hC : classifyColumns columns =
          (if (columns.contains ("asin") || columns.contains ("postal_code")) = true
           then some ("AMAZON") else none) := by
        simp only [classifyColumns, hm, h1f, h2f]
        simp
      rw [hL, hC]
      by_cases h3 : (columns.contains ("asin") || columns.contains ("postal_code")) = true
      · rw [if_pos h3]
        simp
      · rw [if_neg h3]
        simp

/-- Witness for claim C8: on the lower-case TAG header `id_log` the
inline probe and the Type Detector agree. -/
theorem inline_probe_agrees_on_lowercase_witness :
    inline_converter_choice [("id_log")] =
      (if classifyColumns [("id_log")] = some ("API") then some ("API")
       else if classifyColumns [("id_log")] = some ("TAG") then some ("TAG")
       else none) :=
  inline_probe_agrees_on_lowercase [("id_log")] (by decide)

/-- Claim C9 counterexample: `get_file_type` is not side-effect free —
it overwrites the `file_type` field of the `DataProcessor` (here from
`None` to `TAG`). -/
theorem get_file_type_mutates_processor :
    ((DataProcessor.get_file_type ⟨("sample.csv"), none⟩ [("id_log")]).2 ≠
        (⟨("sample.csv"), none⟩ : DataProcessor)) ∧
    (DataProcessor.get_file_type ⟨("sample.csv"), none⟩ [("id_log")]).2.file_type =
        some ("TAG") ∧
    (⟨("sample.csv"), none⟩ : DataProcessor).file_type = none :=
  ⟨by decide, by decide, rfl⟩

/-- Claim C9 (amended): writing the classification to `file_type` is the
only side effect of `get_file_type`: `file_path` is unchanged, the
stored `file_type` equals the returned classification, and the returned
value is a pure function of the column names. -/
theorem get_file_type_only_writes_file_type (dp : DataProcessor)
    (columns : List String) :
    ((DataProcessor.get_file_type dp columns).2.file_path = dp.file_path) ∧
    ((DataProcessor.get_file_type dp columns).2.file_type =
        (DataProcessor.get_file_type dp columns).1) ∧
    ((DataProcessor.get_file_type dp columns).1 = classifyColumns columns) :=
  ⟨rfl, rfl, rfl⟩

/-- Claim C10: a dataset classified AMAZON takes the same no-report
branch of the entry point as an UNKNOWN one, and only the API and TAG
classifications select a validation run. -/
theorem amazon_classification_gets_no_report :
    (∀ columns : List String, classifyColumns columns = some ("AMAZON") →
        mainDispatch (classifyColumns columns) = MainAction.noReport ∧
        mainDispatch (classifyColumns columns) = mainDispatch none) ∧
    (∀ ft : Option String,
        mainDispatch ft = MainAction.runValidationsAPI ∨
          mainDispatch ft = MainAction.runValidationsTAG →
        ft = some ("API") ∨ ft = some ("TAG")) := by
  constructor
  · intro columns h
    rw [h]
    exact ⟨by decide, by decide⟩
  · intro ft h
    by_cases h1 : ft = some ("API")
    · exact Or.inl h1
    · by_cases h2 : ft = some ("TAG")
      · exact Or.inr h2
      · exfalso
        simp [mainDispatch, h1, h2] at h

/-- Witness for claim C10: the AMAZON-signature header `asin` is
classified AMAZON and dispatched to the no-report branch, identically to
an unclassified dataset. -/
theorem amazon_classification_gets_no_report_witness :
    mainDispatch (classifyColumns [("asin")]) = MainAction.noReport ∧
    mainDispatch (classifyColumns [("asin")]) = mainDispatch none :=
  amazon_classification_gets_no_report.1 [("asin")] (by decide)
